import Mathlib

/-!
# Environment resolver of `support/environment.go`

A shallow embedding of the Go package `support` (file `support/environment.go`).

* The process environment read by `os.LookupEnv` is an explicit argument `Env`.
* Go strings are Lean strings; positions are counted in characters, except where the
  Go code takes `len(s)`, which is the UTF-8 byte length (`String.utf8ByteSize`).
  The separator "/" is one byte that never occurs inside a multi-byte character, so
  cutting at the first "/" is the same on characters and on bytes.
* `t.T().Logf` is an explicit list of emitted messages, `t.T().Fatalf` and a run-time
  index fault are explicit constructors of `Outcome`.
* `strings.Index`, `strings.Count` and `strings.SplitN` follow the Go standard library.
-/

namespace Support

/-! ## The environment and the outcome of a call -/

/-- The process environment: `env key = some v` when the variable `key` is set to `v`
(possibly the empty string) and `none` when it is not set. -/
abbrev Env := String → Option String

/-- Go `os.LookupEnv`: the value and `true` when the variable is present, the zero
string and `false` otherwise. -/
def LookupEnv (env : Env) (key : String) : String × Bool :=
  match env key with
  | some v => (v, true)
  | none => ("", false)

/-- How a call ends: it returns a value; or `testing.T.Fatalf` logged `msg`, marked the
test failed and stopped its goroutine; or indexing a slice of length `len` at `index`
faulted with "index out of range". -/
inductive Outcome (α : Type) where
  | returned (v : α) : Outcome α
  | fatal (msg : String) : Outcome α
  | indexOutOfRange (index len : Nat) : Outcome α
  deriving DecidableEq, Repr

/-- Sequencing of outcomes: the first failure stops the evaluation. -/
def Outcome.bind {α β : Type} (o : Outcome α) (f : α → Outcome β) : Outcome β :=
  match o with
  | .returned v => f v
  | .fatal msg => .fatal msg
  | .indexOutOfRange i n => .indexOutOfRange i n

/-- Go slice indexing `a[i]` with its bounds check. -/
def sliceAt (a : List String) (i : Nat) : Outcome String :=
  match a[i]? with
  | some x => .returned x
  | none => .indexOutOfRange i a.length

/-! ## Constants of the package -/

def CodeFlareTestSdkVersion : String := "CODEFLARE_TEST_SDK_VERSION"
def CodeFlareTestRayVersion : String := "CODEFLARE_TEST_RAY_VERSION"
def CodeFlareTestRayImage : String := "CODEFLARE_TEST_RAY_IMAGE"
def CodeFlareTestPyTorchImage : String := "CODEFLARE_TEST_PYTORCH_IMAGE"
def CodeFlareTestOutputDir : String := "CODEFLARE_TEST_OUTPUT_DIR"
def InstaScaleOcmSecret : String := "INSTASCALE_OCM_SECRET"
def ClusterID : String := "CLUSTERID"
def ClusterTypeEnvVar : String := "CLUSTER_TYPE"
def ClusterHostname : String := "CLUSTER_HOSTNAME"
def mnistDatasetURL : String := "MNIST_DATASET_URL"

/-- Go `type ClusterType string`: a string-backed tag. -/
structure ClusterType where
  val : String
  deriving DecidableEq, Repr

def OsdCluster : ClusterType := ⟨"OSD"⟩
def OcpCluster : ClusterType := ⟨"OCP"⟩
def HypershiftCluster : ClusterType := ⟨"HYPERSHIFT"⟩
def KindCluster : ClusterType := ⟨"KIND"⟩
def UndefinedCluster : ClusterType := ⟨"UNDEFINED"⟩

/-! ## The Go standard library functions used by the package -/

/-- Go `strings.Index`: the position of the first occurrence of `sep` in `s`,
`none` (Go: `-1`) when there is none. -/
def Index : List Char → List Char → Option Nat
  | [], sep => if sep.isEmpty then some 0 else none
  | c :: t, sep =>
    if sep.isPrefixOf (c :: t) then some 0 else (Index t sep).map (· + 1)

/-- The loop of Go `strings.Count` for a non-empty `substr`; `fuel` bounds the number
of iterations (each one consumes at least one character of `s`). -/
def countLoop (substr : List Char) : Nat → List Char → Nat
  | 0, _ => 0
  | fuel + 1, s =>
    match Index s substr with
    | none => 0
    | some i => countLoop substr fuel (s.drop (i + substr.length)) + 1

/-- Go `strings.Count`: the number of non-overlapping instances of `substr` in `s`,
and the number of characters plus one for the empty `substr`. -/
def Count (s substr : List Char) : Nat :=
  if substr.isEmpty then s.length + 1 else countLoop substr s.length s

/-- Go `strings.explode`: `s` cut into characters, at most `n` pieces (all of them for
`n < 0`), the last piece being the unsplit rest. -/
def explode (s : List Char) (n : Int) : List (List Char) :=
  let l : Int := s.length
  let n : Int := if n < 0 ∨ n > l then l else n
  if n > 0 then
    (s.take (n.toNat - 1)).map (fun c => [c]) ++ [s.drop (n.toNat - 1)]
  else []

/-- The loop `for i < n` of Go `strings.genSplit` followed by `a[i] = s`; the first
argument is the number of iterations left. -/
def genSplitLoop (sep : List Char) (sepSave : Nat) : Nat → List Char → List (List Char)
  | 0, s => [s]
  | k + 1, s =>
    match Index s sep with
    | none => [s]
    | some m => s.take (m + sepSave) :: genSplitLoop sep sepSave k (s.drop (m + sep.length))

/-- Go `strings.genSplit`: `s` split after each instance of `sep`, keeping `sepSave`
characters of `sep` in the pieces, into at most `n` pieces. -/
def genSplit (s sep : String) (sepSave : Nat) (n : Int) : List String :=
  if n = 0 then []
  else if sep = "" then (explode s.data n).map String.mk
  else
    let n : Int := if n < 0 then (Count s.data sep.data : Int) + 1 else n
    let n : Int := if n > (s.utf8ByteSize : Int) + 1 then (s.utf8ByteSize : Int) + 1 else n
    (genSplitLoop sep.data sepSave (n - 1).toNat s.data).map String.mk

/-- Go `strings.SplitN`. -/
def SplitN (s sep : String) (n : Int) : List String :=
  genSplit s sep 0 n

/-! ## The functions of `support/environment.go` -/

def lookupEnvOrDefault (env : Env) (key value : String) : String :=
  match LookupEnv env key with
  | (v, true) => v
  | (_, false) => value

def GetPyTorchImage (env : Env) : String :=
  lookupEnvOrDefault env CodeFlareTestPyTorchImage
    "pytorch/pytorch:1.11.0-cuda11.3-cudnn8-runtime"

def GetMnistDatasetURL (env : Env) : String :=
  lookupEnvOrDefault env mnistDatasetURL "http://yann.lecun.com/exdb/mnist/"

def GetInstascaleOcmSecret (env : Env) : Outcome (String × String) :=
  let res := SplitN (lookupEnvOrDefault env InstaScaleOcmSecret "default/instascale-ocm-secret") "/" 2
  (sliceAt res 0).bind fun r0 =>
  (sliceAt res 1).bind fun r1 =>
  .returned (r0, r1)

def GetClusterId (env : Env) : String × Bool :=
  LookupEnv env ClusterID

/-- The message of the first `Logf` of `GetClusterType`. -/
def unsetMessage : String :=
  "Environment variable " ++ ClusterTypeEnvVar ++ " is unset."

/-- The message of the second `Logf` of `GetClusterType`. -/
def incorrectValueMessage (clusterType : String) : String :=
  "Environment variable " ++ ClusterTypeEnvVar ++
    " is unset or contains an incorrect value: '" ++ clusterType ++ "'"

/-- The result of `GetClusterType` paired with the messages it passed to `t.T().Logf`,
in order. -/
def GetClusterType (env : Env) : ClusterType × List String :=
  match LookupEnv env ClusterTypeEnvVar with
  | (_, false) => (UndefinedCluster, [unsetMessage])
  | (clusterType, true) =>
    if clusterType = "OSD" then (OsdCluster, [])
    else if clusterType = "OCP" then (OcpCluster, [])
    else if clusterType = "HYPERSHIFT" then (HypershiftCluster, [])
    else if clusterType = "KIND" then (KindCluster, [])
    else (UndefinedCluster, [incorrectValueMessage clusterType])

def GetClusterHostname (env : Env) : Outcome String :=
  match LookupEnv env ClusterHostname with
  | (_, false) =>
    .fatal ("Expected environment variable " ++ ClusterHostname ++
      " not found, please define cluster hostname.")
  | (hostname, true) => .returned hostname

/-! ## Environments used in the examples -/

/-- The environment with no variable set. -/
def emptyEnv : Env := fun _ => none

/-- The environment in which only `key` is set, to `value`. -/
def singleEnv (key value : String) : Env := fun k => if k = key then some value else none

/-! ## Helper lemmas -/

theorem LookupEnv_of_some {env : Env} {key v : String} (h : env key = some v) :
    LookupEnv env key = (v, true) := by
  simp [LookupEnv, h]

theorem LookupEnv_of_none {env : Env} {key : String} (h : env key = none) :
    LookupEnv env key = ("", false) := by
  simp [LookupEnv, h]

theorem lookupEnvOrDefault_of_some {env : Env} {key v : String} (d : String)
    (h : env key = some v) : lookupEnvOrDefault env key d = v := by
  simp [lookupEnvOrDefault, LookupEnv_of_some h]

theorem lookupEnvOrDefault_of_none {env : Env} {key : String} (d : String)
    (h : env key = none) : lookupEnvOrDefault env key d = d := by
  simp [lookupEnvOrDefault, LookupEnv_of_none h]

theorem GetClusterType_of_none {env : Env} (h : env ClusterTypeEnvVar = none) :
    GetClusterType env = (UndefinedCluster, [unsetMessage]) := by
  simp [GetClusterType, LookupEnv_of_none h]

theorem GetClusterType_of_some {env : Env} {v : String} (h : env ClusterTypeEnvVar = some v) :
    GetClusterType env =
      if v = "OSD" then (OsdCluster, [])
      else if v = "OCP" then (OcpCluster, [])
      else if v = "HYPERSHIFT" then (HypershiftCluster, [])
      else if v = "KIND" then (KindCluster, [])
      else (UndefinedCluster, [incorrectValueMessage v]) := by
  simp [GetClusterType, LookupEnv_of_some h]

theorem GetClusterType_of_unmatched {env : Env} {v : String}
    (h : env ClusterTypeEnvVar = some v) (h1 : v ≠ "OSD") (h2 : v ≠ "OCP")
    (h3 : v ≠ "HYPERSHIFT") (h4 : v ≠ "KIND") :
    GetClusterType env = (UndefinedCluster, [incorrectValueMessage v]) := by
  simp [GetClusterType_of_some h, h1, h2, h3, h4]

theorem unsetMessage_ne_incorrectValueMessage (v : String) :
    unsetMessage ≠ incorrectValueMessage v := by
  intro h
  have h1 := congrArg (fun s : String => s.data[42]?) h
  simp [unsetMessage, incorrectValueMessage, ClusterTypeEnvVar, String.data_append] at h1

theorem incorrectValueMessage_injective {v w : String}
    (h : incorrectValueMessage v = incorrectValueMessage w) : v = w := by
  have h1 := congrArg String.data h
  simp [incorrectValueMessage, String.data_append] at h1
  exact String.ext h1

theorem Index_single_of_not_mem (c : Char) (s : List Char) (h : c ∉ s) :
    Index s [c] = none := by
  induction s with
  | nil => simp [Index]
  | cons a t ih =>
    simp only [List.mem_cons, not_or] at h
    simp [Index, List.isPrefixOf, ih h.2, h.1]

theorem Index_single_of_mem (c : Char) (s : List Char) (h : c ∈ s) :
    ∃ m, Index s [c] = some m ∧ c ∉ s.take m ∧ s.take m ++ c :: s.drop (m + 1) = s := by
  induction s with
  | nil => simp at h
  | cons a t ih =>
    by_cases hac : c = a
    · refine ⟨0, ?_, ?_, ?_⟩
      · simp [Index, List.isPrefixOf, hac]
      · simp
      · simp [hac]
    · have ht : c ∈ t := by
        rcases List.mem_cons.1 h with e | e
        · exact absurd e hac
        · exact e
      obtain ⟨m, hm, hnot, heq⟩ := ih ht
      refine ⟨m + 1, ?_, ?_, ?_⟩
      · simp [Index, List.isPrefixOf, hac, hm]
      · simp only [List.take_succ_cons, List.mem_cons, not_or]
        exact ⟨hac, hnot⟩
      · simp only [List.take_succ_cons, List.drop_succ_cons, List.cons_append, heq]

theorem utf8ByteSize_pos_of_mem (s : String) (c : Char) (h : c ∈ s.data) :
    0 < s.utf8ByteSize := by
  obtain ⟨l⟩ := s
  cases l with
  | nil => simp at h
  | cons a t =>
    have := Char.utf8Size_pos a
    simp only [String.utf8ByteSize, String.utf8ByteSize.go]
    omega

theorem genSplitLoop_of_none (sep : List Char) (sepSave k : Nat) (s : List Char)
    (h : Index s sep = none) : genSplitLoop sep sepSave k s = [s] := by
  cases k with
  | zero => rfl
  | succ k => simp [genSplitLoop, h]

/-- Without a "/" in `V`, `SplitN V "/" 2` is the single piece `V`. -/
theorem SplitN_slash_of_not_mem (V : String) (h : '/' ∉ V.data) :
    SplitN V "/" 2 = [V] := by
  have hidx : Index V.data "/".data = none := Index_single_of_not_mem '/' V.data h
  have hsep : ("/" : String) ≠ "" := by decide
  simp [SplitN, genSplit, hsep, genSplitLoop_of_none _ _ _ _ hidx]

/-- With a "/" in `V`, `SplitN V "/" 2` is the piece before the first "/" and the rest
after it. -/
theorem SplitN_slash_of_mem (V : String) (h : '/' ∈ V.data) :
    ∃ ns name : String, SplitN V "/" 2 = [ns, name] ∧ '/' ∉ ns.data ∧
      ns ++ "/" ++ name = V := by
  obtain ⟨m, hm, hnot, heq⟩ := Index_single_of_mem '/' V.data h
  have hidx : Index V.data "/".data = some m := hm
  have hsep : ("/" : String) ≠ "" := by decide
  have hpos := utf8ByteSize_pos_of_mem V '/' h
  have hcap : ¬ ((2 : Int) > (V.utf8ByteSize : Int) + 1) := by omega
  refine ⟨⟨V.data.take m⟩, ⟨V.data.drop (m + 1)⟩, ?_, hnot, ?_⟩
  · have hlen : ("/" : String).data.length = 1 := rfl
    simp [SplitN, genSplit, hsep, hcap, genSplitLoop, hidx, hlen]
  · apply String.ext
    simpa [String.data_append] using heq

/-! ## Resolve with default -/

/-- C1: when the environment has no entry for `key`, `lookupEnvOrDefault key d` is exactly
the default `d`, whatever `d` is (the empty string included). -/
theorem lookupEnvOrDefault_unset (env : Env) (key d : String) (h : env key = none) :
    lookupEnvOrDefault env key d = d :=
  lookupEnvOrDefault_of_none d h

theorem lookupEnvOrDefault_unset_witness :
    emptyEnv "CODEFLARE_TEST_RAY_IMAGE" = none ∧
      lookupEnvOrDefault emptyEnv "CODEFLARE_TEST_RAY_IMAGE" "" = "" :=
  ⟨rfl, lookupEnvOrDefault_unset emptyEnv "CODEFLARE_TEST_RAY_IMAGE" "" rfl⟩

/-- C2: when the environment maps `key` to `V`, `lookupEnvOrDefault key d` is exactly `V`
for every default `d`; so it differs from `d` whenever `V` does, and a variable set to the
empty string yields the empty string. -/
theorem lookupEnvOrDefault_set (env : Env) (key d V : String) (h : env key = some V) :
    lookupEnvOrDefault env key d = V ∧
      (V ≠ d → lookupEnvOrDefault env key d ≠ d) ∧
      (V = "" → lookupEnvOrDefault env key d = "") := by
  have hv := lookupEnvOrDefault_of_some d h
  refine ⟨hv, ?_, ?_⟩
  · intro hne
    rw [hv]
    exact hne
  · intro he
    rw [hv]
    exact he

theorem lookupEnvOrDefault_set_witness :
    singleEnv "MNIST_DATASET_URL" "" "MNIST_DATASET_URL" = some "" ∧
      lookupEnvOrDefault (singleEnv "MNIST_DATASET_URL" "") "MNIST_DATASET_URL"
        "http://yann.lecun.com/exdb/mnist/" = "" ∧
      lookupEnvOrDefault (singleEnv "MNIST_DATASET_URL" "") "MNIST_DATASET_URL"
        "http://yann.lecun.com/exdb/mnist/" ≠ "http://yann.lecun.com/exdb/mnist/" :=
  have h := lookupEnvOrDefault_set (singleEnv "MNIST_DATASET_URL" "") "MNIST_DATASET_URL"
    "http://yann.lecun.com/exdb/mnist/" "" (by decide)
  ⟨by decide, h.1, h.2.1 (by decide)⟩

/-! ## Cluster identifier -/

/-- C9: `GetClusterId` returns `(V, true)` when `CLUSTERID` is set to `V` (the empty string
included) and `("", false)` when it is not set; the result is a plain pair, with no default
and no failure outcome. -/
theorem GetClusterId_spec (env : Env) :
    (∀ V, env "CLUSTERID" = some V → GetClusterId env = (V, true)) ∧
      (env "CLUSTERID" = none → GetClusterId env = ("", false)) := by
  constructor
  · intro V h
    exact LookupEnv_of_some h
  · intro h
    exact LookupEnv_of_none h

theorem GetClusterId_spec_witness :
    GetClusterId (singleEnv "CLUSTERID" "") = ("", true) ∧
      GetClusterId (singleEnv "CLUSTERID" "abc-123") = ("abc-123", true) ∧
      GetClusterId emptyEnv = ("", false) :=
  ⟨(GetClusterId_spec (singleEnv "CLUSTERID" "")).1 "" (by decide),
   (GetClusterId_spec (singleEnv "CLUSTERID" "abc-123")).1 "abc-123" (by decide),
   (GetClusterId_spec emptyEnv).2 rfl⟩

/-! ## Cluster type -/

/-- C3: `GetClusterType` returns one of `OSD`, `OCP`, `HYPERSHIFT`, `KIND`, `UNDEFINED` in
every environment; it returns `UNDEFINED` when `CLUSTER_TYPE` is not set, and when it is set
to a string that is not exactly one of "OSD", "OCP", "HYPERSHIFT", "KIND". -/
theorem GetClusterType_range (env : Env) :
    (GetClusterType env).1 ∈
        [OsdCluster, OcpCluster, HypershiftCluster, KindCluster, UndefinedCluster] ∧
      (env "CLUSTER_TYPE" = none → (GetClusterType env).1 = UndefinedCluster) ∧
      (∀ v, env "CLUSTER_TYPE" = some v →
        v ≠ "OSD" → v ≠ "OCP" → v ≠ "HYPERSHIFT" → v ≠ "KIND" →
        (GetClusterType env).1 = UndefinedCluster) := by
  refine ⟨?_, ?_, ?_⟩
  · cases h : env ClusterTypeEnvVar with
    | none => simp [GetClusterType_of_none h]
    | some v =>
      rw [GetClusterType_of_some h]
      split_ifs <;> simp
  · intro h
    rw [GetClusterType_of_none h]
  · intro v h h1 h2 h3 h4
    rw [GetClusterType_of_unmatched h h1 h2 h3 h4]

theorem GetClusterType_range_witness :
    (GetClusterType (singleEnv "CLUSTER_TYPE" "osd")).1 = UndefinedCluster ∧
      (GetClusterType (singleEnv "CLUSTER_TYPE" "")).1 = UndefinedCluster ∧
      (GetClusterType (singleEnv "CLUSTER_TYPE" "OSD ")).1 = UndefinedCluster ∧
      (GetClusterType (singleEnv "CLUSTER_TYPE" "UNDEFINED")).1 = UndefinedCluster ∧
      (GetClusterType emptyEnv).1 = UndefinedCluster :=
  ⟨(GetClusterType_range (singleEnv "CLUSTER_TYPE" "osd")).2.2 "osd" (by decide)
      (by decide) (by decide) (by decide) (by decide),
   (GetClusterType_range (singleEnv "CLUSTER_TYPE" "")).2.2 "" (by decide)
      (by decide) (by decide) (by decide) (by decide),
   (GetClusterType_range (singleEnv "CLUSTER_TYPE" "OSD ")).2.2 "OSD " (by decide)
      (by decide) (by decide) (by decide) (by decide),
   (GetClusterType_range (singleEnv "CLUSTER_TYPE" "UNDEFINED")).2.2 "UNDEFINED" (by decide)
      (by decide) (by decide) (by decide) (by decide),
   (GetClusterType_range emptyEnv).2.1 rfl⟩

/-- C4: when `CLUSTER_TYPE` is set to "OSD", "OCP", "HYPERSHIFT" or "KIND",
`GetClusterType` returns `OsdCluster`, `OcpCluster`, `HypershiftCluster`, `KindCluster`
respectively: the tag whose underlying string is the value, and never `UndefinedCluster`. -/
theorem GetClusterType_known (env : Env) :
    (env "CLUSTER_TYPE" = some "OSD" → (GetClusterType env).1 = OsdCluster) ∧
      (env "CLUSTER_TYPE" = some "OCP" → (GetClusterType env).1 = OcpCluster) ∧
      (env "CLUSTER_TYPE" = some "HYPERSHIFT" → (GetClusterType env).1 = HypershiftCluster) ∧
      (env "CLUSTER_TYPE" = some "KIND" → (GetClusterType env).1 = KindCluster) ∧
      (∀ v, v ∈ ["OSD", "OCP", "HYPERSHIFT", "KIND"] → env "CLUSTER_TYPE" = some v →
        (GetClusterType env).1.val = v ∧ (GetClusterType env).1 ≠ UndefinedCluster) := by
  refine ⟨?_, ?_, ?_, ?_, ?_⟩
  · intro h
    rw [GetClusterType_of_some h]
    rfl
  · intro h
    rw [GetClusterType_of_some h]
    rfl
  · intro h
    rw [GetClusterType_of_some h]
    rfl
  · intro h
    rw [GetClusterType_of_some h]
    rfl
  · intro v hv h
    rw [GetClusterType_of_some h]
    simp only [List.mem_cons, List.mem_singleton, List.not_mem_nil, or_false] at hv
    rcases hv with rfl | rfl | rfl | rfl <;> decide

theorem GetClusterType_known_witness :
    (GetClusterType (singleEnv "CLUSTER_TYPE" "OSD")).1 = OsdCluster ∧
      (GetClusterType (singleEnv "CLUSTER_TYPE" "OCP")).1 = OcpCluster ∧
      (GetClusterType (singleEnv "CLUSTER_TYPE" "HYPERSHIFT")).1 = HypershiftCluster ∧
      (GetClusterType (singleEnv "CLUSTER_TYPE" "KIND")).1 = KindCluster ∧
      (GetClusterType (singleEnv "CLUSTER_TYPE" "KIND")).1 ≠ UndefinedCluster :=
  ⟨(GetClusterType_known (singleEnv "CLUSTER_TYPE" "OSD")).1 (by decide),
   (GetClusterType_known (singleEnv "CLUSTER_TYPE" "OCP")).2.1 (by decide),
   (GetClusterType_known (singleEnv "CLUSTER_TYPE" "HYPERSHIFT")).2.2.1 (by decide),
   (GetClusterType_known (singleEnv "CLUSTER_TYPE" "KIND")).2.2.2.1 (by decide),
   ((GetClusterType_known (singleEnv "CLUSTER_TYPE" "KIND")).2.2.2.2 "KIND" (by decide)
      (by decide)).2⟩

/-! ## Cluster hostname -/

/-- C5: `GetClusterHostname` returns the value of `CLUSTER_HOSTNAME` unchanged when the
variable is set (the empty string included); when it is not set the call ends in the fatal
test failure and returns nothing; the fatal outcome occurs exactly when the variable is not
set. -/
theorem GetClusterHostname_spec (env : Env) :
    (∀ V, env "CLUSTER_HOSTNAME" = some V → GetClusterHostname env = .returned V) ∧
      (env "CLUSTER_HOSTNAME" = none →
        (∃ msg, GetClusterHostname env = .fatal msg) ∧
          ∀ V, GetClusterHostname env ≠ .returned V) ∧
      ((∃ msg, GetClusterHostname env = .fatal msg) ↔ env "CLUSTER_HOSTNAME" = none) := by
  have hsome : ∀ V, env ClusterHostname = some V → GetClusterHostname env = .returned V := by
    intro V h
    simp [GetClusterHostname, LookupEnv_of_some h]
  have hnone : env ClusterHostname = none → ∃ msg, GetClusterHostname env = .fatal msg := by
    intro h
    simp [GetClusterHostname, LookupEnv_of_none h]
  refine ⟨hsome, ?_, ?_⟩
  · intro h
    refine ⟨hnone h, ?_⟩
    intro V hV
    obtain ⟨msg, hmsg⟩ := hnone h
    rw [hmsg] at hV
    cases hV
  · constructor
    · rintro ⟨msg, hmsg⟩
      cases h : env ClusterHostname with
      | none => exact h
      | some V =>
        rw [hsome V h] at hmsg
        cases hmsg
    · exact hnone

theorem GetClusterHostname_spec_witness :
    GetClusterHostname (singleEnv "CLUSTER_HOSTNAME" "") = .returned "" ∧
      GetClusterHostname (singleEnv "CLUSTER_HOSTNAME" "api.example.org") =
        .returned "api.example.org" ∧
      (∃ msg, GetClusterHostname emptyEnv = .fatal msg) ∧
      (∀ V, GetClusterHostname emptyEnv ≠ .returned V) :=
  ⟨(GetClusterHostname_spec (singleEnv "CLUSTER_HOSTNAME" "")).1 "" (by decide),
   (GetClusterHostname_spec (singleEnv "CLUSTER_HOSTNAME" "api.example.org")).1
      "api.example.org" (by decide),
   ((GetClusterHostname_spec emptyEnv).2.1 rfl).1,
   ((GetClusterHostname_spec emptyEnv).2.1 rfl).2⟩

/-! ## Secret reference -/

/-- C6: when `INSTASCALE_OCM_SECRET` is set to a value `V` with at least one "/",
`GetInstascaleOcmSecret` returns the pair `(ns, name)` cut at the first "/": `ns` has no
"/" and `ns ++ "/" ++ name = V`. -/
theorem GetInstascaleOcmSecret_split (env : Env) (V : String)
    (hset : env "INSTASCALE_OCM_SECRET" = some V) (hslash : '/' ∈ V.data) :
    ∃ ns name : String, GetInstascaleOcmSecret env = .returned (ns, name) ∧
      '/' ∉ ns.data ∧ ns ++ "/" ++ name = V := by
  obtain ⟨ns, name, hsplit, hns, hcat⟩ := SplitN_slash_of_mem V hslash
  have hv : lookupEnvOrDefault env InstaScaleOcmSecret "default/instascale-ocm-secret" = V :=
    lookupEnvOrDefault_of_some _ hset
  refine ⟨ns, name, ?_, hns, hcat⟩
  simp [GetInstascaleOcmSecret, hv, hsplit, sliceAt, Outcome.bind]

theorem GetInstascaleOcmSecret_split_witness :
    GetInstascaleOcmSecret (singleEnv "INSTASCALE_OCM_SECRET" "ns/secretname") =
        .returned ("ns", "secretname") ∧
      GetInstascaleOcmSecret (singleEnv "INSTASCALE_OCM_SECRET" "a/b/c") =
        .returned ("a", "b/c") ∧
      ∃ ns name : String,
        GetInstascaleOcmSecret (singleEnv "INSTASCALE_OCM_SECRET" "a/b/c") =
          .returned (ns, name) ∧
        '/' ∉ ns.data ∧ ns ++ "/" ++ name = "a/b/c" :=
  ⟨by decide, by decide,
   GetInstascaleOcmSecret_split (singleEnv "INSTASCALE_OCM_SECRET" "a/b/c") "a/b/c"
      (by decide) (by decide)⟩

/-- C7: when `INSTASCALE_OCM_SECRET` is set to a value `V` without any "/" (the empty
string included: it is used instead of the default), the split yields the single element
`V` and `GetInstascaleOcmSecret` returns no pair: reading the element at index 1 of a
slice of length 1 is an index-out-of-range fault. -/
theorem GetInstascaleOcmSecret_fault (env : Env) (V : String)
    (hset : env "INSTASCALE_OCM_SECRET" = some V) (hslash : '/' ∉ V.data) :
    SplitN (lookupEnvOrDefault env InstaScaleOcmSecret "default/instascale-ocm-secret") "/" 2
        = [V] ∧
      GetInstascaleOcmSecret env = .indexOutOfRange 1 1 ∧
      ∀ p, GetInstascaleOcmSecret env ≠ .returned p := by
  have hv : lookupEnvOrDefault env InstaScaleOcmSecret "default/instascale-ocm-secret" = V :=
    lookupEnvOrDefault_of_some _ hset
  have hsplit := SplitN_slash_of_not_mem V hslash
  have hres : GetInstascaleOcmSecret env = .indexOutOfRange 1 1 := by
    simp [GetInstascaleOcmSecret, hv, hsplit, sliceAt, Outcome.bind]
  refine ⟨by rw [hv, hsplit], hres, ?_⟩
  intro p hp
  rw [hres] at hp
  cases hp

theorem GetInstascaleOcmSecret_fault_witness :
    GetInstascaleOcmSecret (singleEnv "INSTASCALE_OCM_SECRET" "no-slash-here") =
        .indexOutOfRange 1 1 ∧
      GetInstascaleOcmSecret (singleEnv "INSTASCALE_OCM_SECRET" "") = .indexOutOfRange 1 1 :=
  ⟨(GetInstascaleOcmSecret_fault (singleEnv "INSTASCALE_OCM_SECRET" "no-slash-here")
      "no-slash-here" (by decide) (by decide)).2.1,
   (GetInstascaleOcmSecret_fault (singleEnv "INSTASCALE_OCM_SECRET" "") ""
      (by decide) (by decide)).2.1⟩

/-- C8: when `INSTASCALE_OCM_SECRET` is not set, `GetInstascaleOcmSecret` returns exactly
`("default", "instascale-ocm-secret")`, without a fault. -/
theorem GetInstascaleOcmSecret_default (env : Env)
    (hunset : env "INSTASCALE_OCM_SECRET" = none) :
    GetInstascaleOcmSecret env = .returned ("default", "instascale-ocm-secret") := by
  have hv : lookupEnvOrDefault env InstaScaleOcmSecret "default/instascale-ocm-secret" =
      "default/instascale-ocm-secret" := lookupEnvOrDefault_of_none _ hunset
  have hsplit : SplitN "default/instascale-ocm-secret" "/" 2 =
      ["default", "instascale-ocm-secret"] := by decide
  simp [GetInstascaleOcmSecret, hv, hsplit, sliceAt, Outcome.bind]

theorem GetInstascaleOcmSecret_default_witness :
    emptyEnv "INSTASCALE_OCM_SECRET" = none ∧
      GetInstascaleOcmSecret emptyEnv = .returned ("default", "instascale-ocm-secret") :=
  ⟨rfl, GetInstascaleOcmSecret_default emptyEnv rfl⟩

/-! ## Diagnostics of the cluster type -/

/-- C10: with the messages passed to `Logf` as an explicit output, `GetClusterType` emits
exactly one message when it returns `UNDEFINED` and none when it returns one of the four
known tags; the message is "... is unset." when `CLUSTER_TYPE` is not set and
"... is unset or contains an incorrect value: '<value>'" when it is set to an unmatched
value; the two messages differ, and the second is emitted only when the variable is set
(to the value it quotes). -/
theorem GetClusterType_log (env : Env) :
    ((GetClusterType env).1 = UndefinedCluster → (GetClusterType env).2.length = 1) ∧
      ((GetClusterType env).1 ∈ [OsdCluster, OcpCluster, HypershiftCluster, KindCluster] →
        (GetClusterType env).2 = []) ∧
      (env "CLUSTER_TYPE" = none → (GetClusterType env).2 = [unsetMessage]) ∧
      (∀ v, env "CLUSTER_TYPE" = some v → (GetClusterType env).1 = UndefinedCluster →
        (GetClusterType env).2 = [incorrectValueMessage v]) ∧
      (∀ v, unsetMessage ≠ incorrectValueMessage v) ∧
      (∀ v, incorrectValueMessage v ∈ (GetClusterType env).2 → env "CLUSTER_TYPE" = some v) := by
  have hOsd : OsdCluster ≠ UndefinedCluster := by decide
  have hOcp : OcpCluster ≠ UndefinedCluster := by decide
  have hHyp : HypershiftCluster ≠ UndefinedCluster := by decide
  have hKind : KindCluster ≠ UndefinedCluster := by decide
  have hU : UndefinedCluster ∉ [OsdCluster, OcpCluster, HypershiftCluster, KindCluster] := by
    decide
  refine ⟨?_, ?_, ?_, ?_, unsetMessage_ne_incorrectValueMessage, ?_⟩
  · cases h : env ClusterTypeEnvVar with
    | none => simp [GetClusterType_of_none h]
    | some v =>
      rw [GetClusterType_of_some h]
      split_ifs <;> simp [hOsd, hOcp, hHyp, hKind]
  · cases h : env ClusterTypeEnvVar with
    | none =>
      rw [GetClusterType_of_none h]
      intro hmem
      exact absurd hmem hU
    | some v =>
      rw [GetClusterType_of_some h]
      split_ifs
      · intro _; rfl
      · intro _; rfl
      · intro _; rfl
      · intro _; rfl
      · intro hmem
        exact absurd hmem hU
  · intro h
    rw [GetClusterType_of_none h]
  · intro v h
    rw [GetClusterType_of_some h]
    split_ifs
    · intro hr; exact absurd hr hOsd
    · intro hr; exact absurd hr hOcp
    · intro hr; exact absurd hr hHyp
    · intro hr; exact absurd hr hKind
    · intro _; rfl
  · intro v
    cases h : env ClusterTypeEnvVar with
    | none =>
      rw [GetClusterType_of_none h]
      intro hmem
      rw [List.mem_singleton] at hmem
      exact absurd hmem.symm (unsetMessage_ne_incorrectValueMessage v)
    | some w =>
      rw [GetClusterType_of_some h]
      split_ifs
      · intro hmem; cases hmem
      · intro hmem; cases hmem
      · intro hmem; cases hmem
      · intro hmem; cases hmem
      · intro hmem
        rw [List.mem_singleton] at hmem
        rw [incorrectValueMessage_injective hmem]
        exact h

theorem GetClusterType_log_witness :
    GetClusterType emptyEnv =
        (UndefinedCluster, ["Environment variable CLUSTER_TYPE is unset."]) ∧
      GetClusterType (singleEnv "CLUSTER_TYPE" "osd") =
        (UndefinedCluster,
          ["Environment variable CLUSTER_TYPE is unset or contains an incorrect value: 'osd'"]) ∧
      GetClusterType (singleEnv "CLUSTER_TYPE" "KIND") = (KindCluster, []) ∧
      (GetClusterType emptyEnv).2.length = 1 ∧
      (GetClusterType (singleEnv "CLUSTER_TYPE" "osd")).2 = [incorrectValueMessage "osd"] ∧
      (GetClusterType (singleEnv "CLUSTER_TYPE" "KIND")).2 = [] :=
  ⟨by decide, by decide, by decide,
   (GetClusterType_log emptyEnv).1 (by decide),
   (GetClusterType_log (singleEnv "CLUSTER_TYPE" "osd")).2.2.2.1 "osd" (by decide) (by decide),
   (GetClusterType_log (singleEnv "CLUSTER_TYPE" "KIND")).2.1 (by decide)⟩

end Support
